import Mathlib

/-!
Shallow embedding of the `copilot-bootcamp-lesson-5` backend
(`src/packages/backend/src/app.js` and
`src/packages/backend/src/controllers/ItemDetailsController.js`).

Conventions of the embedding:
* JavaScript values received in request bodies / options objects are modelled
  by the inductive type `JSVal` (JSON values plus `undefined`); JS numbers are
  modelled as integers, since no behaviour settled here depends on fractional
  values.
* All clock reads performed while serving one request
  (`new Date().toISOString()`, `Date.now()`, SQLite `CURRENT_TIMESTAMP`) are
  abstracted to a single opaque timestamp string parameter `now`.
* The better-sqlite3 store is modelled by explicit row lists
  (`ItemsDB`, `DetailsDB`) threaded through every handler.  better-sqlite3
  binding rules are modelled faithfully: only numbers, strings and `null`
  bind (`undefined` and booleans raise a `TypeError`), and `run`/`get` raise
  a `RangeError` when the number of supplied anonymous parameters differs
  from the number of `?` placeholders in the prepared statement.
* Express route handlers are modelled as pure functions from the request
  parts they actually read (path parameter, JSON body, store) to an
  `HttpResponse` and the resulting store.  `app.js` installs no middleware
  that assigns `req.user`, `req.permissions`, or the other `req.*` advanced
  options, so the route embeddings pass `undefined` for those.
-/

/-- A JavaScript value as it appears in a JSON request body or an options
object: the JSON values plus `undefined`.  Numbers are modelled as integers. -/
inductive JSVal where
  | undefined : JSVal
  | null : JSVal
  | bool : Bool → JSVal
  | num : Int → JSVal
  | str : String → JSVal
  | arr : List JSVal → JSVal
  | obj : List (String × JSVal) → JSVal

namespace JSVal

/-- Property lookup `v[key]` in the common case where it cannot throw
(lookup on an object; a missing key yields `undefined`).  First binding
wins, matching unique-key JSON objects. -/
def getField : JSVal → String → JSVal
  | .obj fields, key =>
    match fields.find? (fun kv => kv.fst == key) with
    | some kv => kv.snd
    | none => .undefined
  | _, _ => .undefined

/-- JS truthiness: `undefined`, `null`, `false`, `0` and `""` are falsy. -/
def truthy : JSVal → Bool
  | .undefined => false
  | .null => false
  | .bool b => b
  | .num n => n ≠ 0
  | .str s => s ≠ ""
  | .arr _ => true
  | .obj _ => true

def isArr : JSVal → Bool
  | .arr _ => true
  | _ => false

def isStr : JSVal → Bool
  | .str _ => true
  | _ => false

end JSVal

/-- A destructuring default `const \x7b x = d \x7d = o`: the default replaces
the value exactly when it is `undefined`. -/
def withDefault (v d : JSVal) : JSVal :=
  match v with
  | .undefined => d
  | v => v

/-- Replace-or-append a key in an object field list (JS property assignment
on an object keeps the key's position; a new key is appended). -/
def objSet (fields : List (String × JSVal)) (key : String) (v : JSVal) :
    List (String × JSVal) :=
  match fields with
  | [] => [(key, v)]
  | kv :: rest =>
    if kv.fst = key then (key, v) :: rest else kv :: objSet rest key v

/-- JS property assignment `target[key] = v`.  On an object it sets the
property; on primitives it is a silent no-op; on an array it would add a
non-index property, which `JSON.stringify` ignores, so the array is modelled
unchanged. -/
def setProp (target : JSVal) (key : String) (v : JSVal) : JSVal :=
  match target with
  | .obj fields => .obj (objSet fields key v)
  | t => t

/-- The whitespace class used by both `String.prototype.trim` and `parseInt`
(space, tab, newline, carriage return, vertical tab, form feed, NBSP). -/
def jsIsWs (c : Char) : Bool :=
  c == ' ' || c == '\t' || c == '\n' || c == '\r' ||
  c == Char.ofNat 11 || c == Char.ofNat 12 || c == Char.ofNat 160

/-- `String.prototype.trim`. -/
def jsTrim (s : String) : String :=
  String.mk (((s.toList.dropWhile jsIsWs).reverse.dropWhile jsIsWs).reverse)

def hexDigitVal (c : Char) : Option Nat :=
  if '0' ≤ c ∧ c ≤ '9' then some (c.toNat - '0'.toNat)
  else if 'a' ≤ c ∧ c ≤ 'f' then some (c.toNat - 'a'.toNat + 10)
  else if 'A' ≤ c ∧ c ≤ 'F' then some (c.toNat - 'A'.toNat + 10)
  else none

/-- Hex-digit test used for the `0x` branch of `parseInt`. -/
def isHexDigitChar (c : Char) : Bool :=
  (hexDigitVal c).isSome

def decDigitsVal (ds : List Char) : Nat :=
  ds.foldl (fun acc c => acc * 10 + (c.toNat - '0'.toNat)) 0

def hexDigitsVal (ds : List Char) : Nat :=
  ds.foldl (fun acc c => acc * 16 + ((hexDigitVal c).getD 0)) 0

/-- `parseInt(s)` with no radix argument: skip leading whitespace, optional
sign, then either a `0x`/`0X` hexadecimal literal or the longest decimal
digit prefix; `none` models `NaN`. -/
def parseIntJS (s : String) : Option Int :=
  let cs := s.toList.dropWhile jsIsWs
  let signed : Bool × List Char :=
    match cs with
    | '-' :: rest => (true, rest)
    | '+' :: rest => (false, rest)
    | _ => (false, cs)
  let neg := signed.fst
  let body := signed.snd
  let mag : Option Nat :=
    match body with
    | '0' :: x :: rest =>
      if x = 'x' ∨ x = 'X' then
        let hs := rest.takeWhile (fun c => (hexDigitVal c).isSome)
        if hs = [] then none else some (hexDigitsVal hs)
      else
        some (decDigitsVal (('0' :: x :: rest).takeWhile Char.isDigit))
    | _ =>
      let ds := body.takeWhile Char.isDigit
      if ds = [] then none else some (decDigitsVal ds)
  mag.map (fun m => if neg then -(m : Int) else (m : Int))

/-- Strict decimal integer reading used to model SQLite's comparison affinity:
a TEXT value compares equal to an INTEGER column value only when the whole
text is a (signed) decimal integer literal denoting it. -/
def sqlTextToInt (s : String) : Option Int :=
  match s.toList with
  | [] => none
  | '-' :: ds => if ds ≠ [] ∧ ds.all Char.isDigit then some (-(decDigitsVal ds : Int)) else none
  | ds => if ds.all Char.isDigit then some ((decDigitsVal ds : Int)) else none

/-! ### `JSON.stringify` / `JSON.parse` -/

def escapeJsonChar (c : Char) : String :=
  if c = '"' then "\\\""
  else if c = '\\' then "\\\\"
  else if c = '\n' then "\\n"
  else if c = '\t' then "\\t"
  else if c = '\r' then "\\r"
  else String.singleton c

def quoteJson (s : String) : String :=
  "\"" ++ String.join (s.toList.map escapeJsonChar) ++ "\""

mutual

/-- `JSON.stringify`: `none` models the call returning `undefined`
(top-level `undefined`).  Inside arrays `undefined` serializes as `null`;
object properties with `undefined` values are dropped. -/
def jsonStringify : JSVal → Option String
  | .undefined => none
  | .null => some "null"
  | .bool true => some "true"
  | .bool false => some "false"
  | .num n => some (toString n)
  | .str s => some (quoteJson s)
  | .arr xs => some ("[" ++ String.intercalate "," (jsonStringifyElems xs) ++ "]")
  | .obj fs => some ("\x7b" ++ String.intercalate "," (jsonStringifyFields fs) ++ "\x7d")

def jsonStringifyElems : List JSVal → List String
  | [] => []
  | v :: rest =>
    (match jsonStringify v with
     | some s => s
     | none => "null") :: jsonStringifyElems rest

def jsonStringifyFields : List (String × JSVal) → List String
  | [] => []
  | (k, v) :: rest =>
    match jsonStringify v with
    | some s => (quoteJson k ++ ":" ++ s) :: jsonStringifyFields rest
    | none => jsonStringifyFields rest

end

/-- The controller stores structured sub-fields via `JSON.stringify(v)`; when
that returns `undefined` (input `undefined`) the resulting property holds
`undefined`. -/
def stringifyJS (v : JSVal) : JSVal :=
  match jsonStringify v with
  | some s => .str s
  | none => .undefined

def jsonWs (c : Char) : Bool :=
  c == ' ' || c == '\t' || c == '\n' || c == '\r'

/-- Parse a JSON string body (after the opening quote), returning the string
and the remaining characters past the closing quote. -/
def parseJsonString (fuel : Nat) (cs : List Char) (acc : List Char) :
    Option (String × List Char) :=
  match fuel, cs with
  | 0, _ => none
  | _, [] => none
  | fuel + 1, c :: rest =>
    if c = '"' then some (String.mk acc.reverse, rest)
    else if c = '\\' then
      match rest with
      | [] => none
      | e :: rest2 =>
        let dec : Option (Char × List Char) :=
          if e = '"' then some ('"', rest2)
          else if e = '\\' then some ('\\', rest2)
          else if e = '/' then some ('/', rest2)
          else if e = 'n' then some ('\n', rest2)
          else if e = 't' then some ('\t', rest2)
          else if e = 'r' then some ('\r', rest2)
          else if e = 'b' then some (Char.ofNat 8, rest2)
          else if e = 'f' then some (Char.ofNat 12, rest2)
          else if e = 'u' then
            match rest2 with
            | a :: b :: c2 :: d :: rest3 =>
              match hexDigitVal a, hexDigitVal b, hexDigitVal c2, hexDigitVal d with
              | some va, some vb, some vc, some vd =>
                some (Char.ofNat (((va * 16 + vb) * 16 + vc) * 16 + vd), rest3)
              | _, _, _, _ => none
            | _ => none
          else none
        match dec with
        | some (ch, rest3) => parseJsonString fuel rest3 (ch :: acc)
        | none => none
    else parseJsonString fuel rest (c :: acc)

mutual

/-- Recursive-descent `JSON.parse`, fuelled by remaining input length.
Only integral numbers are accepted (the embedding models JS numbers as
integers); no settled claim feeds non-integral or string-typed structured
data through this parser. -/
def parseJsonVal (fuel : Nat) (cs : List Char) : Option (JSVal × List Char) :=
  match fuel with
  | 0 => none
  | fuel + 1 =>
    match cs.dropWhile jsonWs with
    | [] => none
    | c :: rest =>
      if c = '"' then
        (parseJsonString (fuel + 1) rest []).map (fun (s, r) => (.str s, r))
      else if c = '[' then
        match rest.dropWhile jsonWs with
        | ']' :: rest2 => some (.arr [], rest2)
        | _ => (parseJsonElems fuel rest).map (fun (xs, r) => (.arr xs, r))
      else if c = Char.ofNat 123 then
        match rest.dropWhile jsonWs with
        | c2 :: rest2 =>
          if c2 = Char.ofNat 125 then some (.obj [], rest2)
          else (parseJsonMembers fuel rest).map (fun (fs, r) => (.obj fs, r))
        | [] => none
      else if c = 't' then
        match rest with
        | 'r' :: 'u' :: 'e' :: r => some (.bool true, r)
        | _ => none
      else if c = 'f' then
        match rest with
        | 'a' :: 'l' :: 's' :: 'e' :: r => some (.bool false, r)
        | _ => none
      else if c = 'n' then
        match rest with
        | 'u' :: 'l' :: 'l' :: r => some (.null, r)
        | _ => none
      else if c = '-' then
        let ds := rest.takeWhile Char.isDigit
        if ds = [] then none
        else some (.num (-(decDigitsVal ds : Int)), rest.drop ds.length)
      else if c.isDigit then
        let ds := (c :: rest).takeWhile Char.isDigit
        some (.num (decDigitsVal ds : Int), (c :: rest).drop ds.length)
      else none

def parseJsonElems (fuel : Nat) (cs : List Char) : Option (List JSVal × List Char) :=
  match fuel with
  | 0 => none
  | fuel + 1 =>
    match parseJsonVal fuel cs with
    | none => none
    | some (v, rest) =>
      match rest.dropWhile jsonWs with
      | ',' :: rest2 =>
        (parseJsonElems fuel rest2).map (fun (xs, r) => (v :: xs, r))
      | ']' :: rest2 => some ([v], rest2)
      | _ => none

def parseJsonMembers (fuel : Nat) (cs : List Char) :
    Option (List (String × JSVal) × List Char) :=
  match fuel with
  | 0 => none
  | fuel + 1 =>
    match cs.dropWhile jsonWs with
    | '"' :: rest =>
      match parseJsonString fuel rest [] with
      | none => none
      | some (k, rest2) =>
        match rest2.dropWhile jsonWs with
        | ':' :: rest3 =>
          match parseJsonVal fuel rest3 with
          | none => none
          | some (v, rest4) =>
            match rest4.dropWhile jsonWs with
            | ',' :: rest5 =>
              (parseJsonMembers fuel rest5).map (fun (fs, r) => ((k, v) :: fs, r))
            | c :: rest5 =>
              if c = Char.ofNat 125 then some ([(k, v)], rest5) else none
            | [] => none
        | _ => none
    | _ => none

end

/-- `JSON.parse`: `none` models a thrown `SyntaxError`. -/
def jsonParse (s : String) : Option JSVal :=
  match parseJsonVal (s.length * 2 + 8) s.toList with
  | some (v, rest) => if rest.dropWhile jsonWs = [] then some v else none
  | none => none

/-! ### better-sqlite3 storage model -/

/-- A stored SQLite value (the columns used here hold only integers, text
and NULL). -/
inductive SQLiteValue where
  | int : Int → SQLiteValue
  | text : String → SQLiteValue
  | null : SQLiteValue
deriving DecidableEq

/-- better-sqlite3 parameter binding: numbers, strings and `null` bind;
`undefined`, booleans, arrays and objects raise
`TypeError: SQLite3 can only bind numbers, strings, bigints, buffers, and null`. -/
def bindValue : JSVal → Option SQLiteValue
  | .num n => some (.int n)
  | .str s => some (.text s)
  | .null => some .null
  | _ => none

/-- SQLite comparison of a bound parameter against the INTEGER `id` column
(INTEGER affinity converts a fully-numeric TEXT parameter). -/
def affinityMatchesId (v : SQLiteValue) (rid : Int) : Bool :=
  match v with
  | .int n => n == rid
  | .text s => sqlTextToInt s == some rid
  | .null => false

/-- `WHERE id = ?` with a raw route-parameter string bound. -/
def textAffinityMatch (s : String) (rid : Int) : Bool :=
  affinityMatchesId (.text s) rid

/-- An HTTP response as produced by the route handlers: status code and JSON
body. -/
structure HttpResponse where
  status : Nat
  body : JSVal

def errObj (s : String) : JSVal := .obj [("error", .str s)]
def msgObj (s : String) : JSVal := .obj [("message", .str s)]

/-! ### `items` table and its routes (`app.js`) -/

/-- One row of the `items` table. -/
structure ItemRow where
  id : Int
  name : String
  created_at : String
deriving DecidableEq

/-- The `items` table: rows plus the AUTOINCREMENT counter. -/
structure ItemsDB where
  rows : List ItemRow
  nextId : Int
deriving DecidableEq

def itemRowToJS (r : ItemRow) : JSVal :=
  .obj [("id", .num r.id), ("name", .str r.name), ("created_at", .str r.created_at)]

/-- `POST /api/items` (app.js lines 134-159): rejects a missing, non-string
or blank-after-trim `name` with 400; otherwise inserts one row and returns
the stored record (fetched back by id) with status 201. -/
def postItemsRoute (body : JSVal) (now : String) (db : ItemsDB) :
    HttpResponse × ItemsDB :=
  match body.getField "name" with
  | .str s =>
    if jsTrim s = "" then (⟨400, errObj "Item name is required"⟩, db)
    else
      let row : ItemRow := ⟨db.nextId, s, now⟩
      (⟨201, itemRowToJS row⟩, ⟨db.rows ++ [row], db.nextId + 1⟩)
  | _ => (⟨400, errObj "Item name is required"⟩, db)

/-- `DELETE /api/items/:id` (app.js lines 161-190): 400 when
`isNaN(parseInt(id))` (the `!id` guard is subsumed: an empty parameter does
not parse), otherwise runs `DELETE ... WHERE id = parseInt(id)`; zero
affected rows yields 404. -/
def deleteItemsRoute (idParam : String) (db : ItemsDB) :
    HttpResponse × ItemsDB :=
  match parseIntJS idParam with
  | none => (⟨400, errObj "Valid item ID is required"⟩, db)
  | some n =>
    let remaining := db.rows.filter (fun r => ¬ r.id = n)
    if db.rows.length - remaining.length = 0 then
      (⟨404, errObj "Item not found"⟩, db)
    else
      (⟨200, msgObj "Item deleted successfully"⟩, ⟨remaining, db.nextId⟩)

/-! ### `item_details` table -/

/-- One row of the `item_details` table, one field per column of the
`CREATE TABLE` in app.js.  `id` is the INTEGER PRIMARY KEY; every other
column holds a stored SQLite value. -/
structure DetailRow where
  id : Int
  name : SQLiteValue
  description : SQLiteValue
  category : SQLiteValue
  priority : SQLiteValue
  tags : SQLiteValue
  status : SQLiteValue
  due_date : SQLiteValue
  assignee : SQLiteValue
  created_by : SQLiteValue
  custom_fields : SQLiteValue
  attachment_ids : SQLiteValue
  metadata : SQLiteValue
  dependencies : SQLiteValue
  estimated_hours : SQLiteValue
  budget : SQLiteValue
  location : SQLiteValue
  external_refs : SQLiteValue
  workflow_stage : SQLiteValue
  approval_required : SQLiteValue
  template_id : SQLiteValue
  parent_item_id : SQLiteValue
  linked_items : SQLiteValue
  reminder_settings : SQLiteValue
  created_at : SQLiteValue
  updated_at : SQLiteValue
deriving DecidableEq

/-- The `item_details` table. -/
structure DetailsDB where
  rows : List DetailRow
  nextId : Int
deriving DecidableEq

def emptyDetailsDB : DetailsDB := ⟨[], 1⟩

def sqlToJS : SQLiteValue → JSVal
  | .int n => .num n
  | .text s => .str s
  | .null => .null

/-- `SELECT *` row as better-sqlite3 returns it: an object keyed by column
name, in table column order. -/
def detailRowToJS (r : DetailRow) : JSVal :=
  .obj [("id", .num r.id),
        ("name", sqlToJS r.name),
        ("description", sqlToJS r.description),
        ("category", sqlToJS r.category),
        ("priority", sqlToJS r.priority),
        ("tags", sqlToJS r.tags),
        ("status", sqlToJS r.status),
        ("due_date", sqlToJS r.due_date),
        ("assignee", sqlToJS r.assignee),
        ("created_by", sqlToJS r.created_by),
        ("custom_fields", sqlToJS r.custom_fields),
        ("attachment_ids", sqlToJS r.attachment_ids),
        ("metadata", sqlToJS r.metadata),
        ("dependencies", sqlToJS r.dependencies),
        ("estimated_hours", sqlToJS r.estimated_hours),
        ("budget", sqlToJS r.budget),
        ("location", sqlToJS r.location),
        ("external_refs", sqlToJS r.external_refs),
        ("workflow_stage", sqlToJS r.workflow_stage),
        ("approval_required", sqlToJS r.approval_required),
        ("template_id", sqlToJS r.template_id),
        ("parent_item_id", sqlToJS r.parent_item_id),
        ("linked_items", sqlToJS r.linked_items),
        ("reminder_settings", sqlToJS r.reminder_settings),
        ("created_at", sqlToJS r.created_at),
        ("updated_at", sqlToJS r.updated_at)]

/-- The column names of `item_details`, as accepted by a `SET <name> = ?`
clause.  Any other request-supplied key makes `prepare` raise
(`no such column` / SQL syntax error). -/
def detailColumns : List String :=
  ["id", "name", "description", "category", "priority", "tags", "status",
   "due_date", "assignee", "created_by", "custom_fields", "attachment_ids",
   "metadata", "dependencies", "estimated_hours", "budget", "location",
   "external_refs", "workflow_stage", "approval_required", "template_id",
   "parent_item_id", "linked_items", "reminder_settings", "created_at",
   "updated_at"]

/-- Assign one named column of a row (used by the dynamic `SET` clause). -/
def setDetailCol (r : DetailRow) (col : String) (v : SQLiteValue) : DetailRow :=
  if col = "id" then { r with id := match v with | .int n => n | _ => r.id }
  else if col = "name" then { r with name := v }
  else if col = "description" then { r with description := v }
  else if col = "category" then { r with category := v }
  else if col = "priority" then { r with priority := v }
  else if col = "tags" then { r with tags := v }
  else if col = "status" then { r with status := v }
  else if col = "due_date" then { r with due_date := v }
  else if col = "assignee" then { r with assignee := v }
  else if col = "created_by" then { r with created_by := v }
  else if col = "custom_fields" then { r with custom_fields := v }
  else if col = "attachment_ids" then { r with attachment_ids := v }
  else if col = "metadata" then { r with metadata := v }
  else if col = "dependencies" then { r with dependencies := v }
  else if col = "estimated_hours" then { r with estimated_hours := v }
  else if col = "budget" then { r with budget := v }
  else if col = "location" then { r with location := v }
  else if col = "external_refs" then { r with external_refs := v }
  else if col = "workflow_stage" then { r with workflow_stage := v }
  else if col = "approval_required" then { r with approval_required := v }
  else if col = "template_id" then { r with template_id := v }
  else if col = "parent_item_id" then { r with parent_item_id := v }
  else if col = "linked_items" then { r with linked_items := v }
  else if col = "reminder_settings" then { r with reminder_settings := v }
  else if col = "created_at" then { r with created_at := v }
  else if col = "updated_at" then { r with updated_at := v }
  else r

/-! ### JS coercion helpers used by the controller's utility functions -/

/-- Property access `v[key]` that models the JS `TypeError` thrown on
`undefined`/`null` bases; arrays and strings are indexable by numeric keys,
other primitives yield `undefined`. -/
def jsIndex (v : JSVal) (key : String) : Except String JSVal :=
  match v with
  | .undefined => .error "TypeError: Cannot read properties of undefined"
  | .null => .error "TypeError: Cannot read properties of null"
  | .obj fields => .ok ((JSVal.obj fields).getField key)
  | .arr xs =>
    match sqlTextToInt key with
    | some n => .ok ((xs.drop n.toNat).headD .undefined)
    | none => .ok .undefined
  | .str s =>
    match sqlTextToInt key with
    | some n => .ok (match (s.toList.drop n.toNat).head? with
                     | some c => .str (String.singleton c)
                     | none => .undefined)
    | none => .ok .undefined
  | _ => .ok .undefined

mutual

/-- JS `toString()` coercion of the values this embedding can hold. -/
def jsToStringCoerce : JSVal → String
  | .undefined => "undefined"
  | .null => "null"
  | .bool true => "true"
  | .bool false => "false"
  | .num n => toString n
  | .str s => s
  | .arr xs => String.intercalate "," (jsCoerceElems xs)
  | .obj _ => "[object Object]"

def jsCoerceElems : List JSVal → List String
  | [] => []
  | .null :: rest => "" :: jsCoerceElems rest
  | .undefined :: rest => "" :: jsCoerceElems rest
  | v :: rest => jsToStringCoerce v :: jsCoerceElems rest

end

def isNullOrUndefJS : JSVal → Bool
  | .null => true
  | .undefined => true
  | _ => false

def isUndefinedJS : JSVal → Bool
  | .undefined => true
  | _ => false

def isNullJS : JSVal → Bool
  | .null => true
  | _ => false

/-! ### Controller utility functions
(ItemDetailsController.js, lines 5-385) -/

/-- `array.includes(s)` over a permissions array (strict equality, so only
string elements can match). -/
def hasStrElem (ps : List JSVal) (s : String) : Bool :=
  ps.any fun p =>
    match p with
    | .str t => t == s
    | _ => false

/-- `validatePermissions` (lines 5-24): requires an array containing both
`'read'` and `'write'`. -/
def validatePermissions (permissions : JSVal) (_createdBy : JSVal) : Bool :=
  match permissions with
  | .arr ps => hasStrElem ps "read" && hasStrElem ps "write"
  | _ => false

/-- `validateUpdatePermissions` (lines 152-168): requires an array containing
`'write'` or `'admin'`. -/
def validateUpdatePermissions (permissions _userId _itemId : JSVal) : Bool :=
  match permissions with
  | .arr ps => hasStrElem ps "write" || hasStrElem ps "admin"
  | _ => false

/-- `processCustomFields` (lines 26-52): falsy input yields `\x7b\x7d`; a string is
`JSON.parse`d (a parse error is caught and yields `\x7b\x7d`); a truthy
`templateId` stamps `templateApplied` and `processedAt` onto the fields.
The stamping assignment on a parsed `null` throws a TypeError and the catch
yields `\x7b\x7d`; on other primitives it is a sloppy-mode silent no-op
(`setProp` leaves them unchanged). -/
def processCustomFields (customFields templateId : JSVal) (now : String) : JSVal :=
  if ¬ customFields.truthy then .obj []
  else
    match (match customFields with
           | .str s => jsonParse s
           | v => some v) with
    | none => .obj []
    | some fields =>
      if templateId.truthy then
        match fields with
        | .null => .obj []
        | f => setProp (setProp f "templateApplied" templateId) "processedAt" (.str now)
      else fields

/-- `handleAttachments` (lines 54-78): a non-array yields `[]`; an array maps
to generated `att_<timestamp>_<index>` ids. -/
def handleAttachments (attachments : JSVal) (now : String) : JSVal :=
  match attachments with
  | .arr xs =>
    .arr ((List.range xs.length).map fun i => .str ("att_" ++ now ++ "_" ++ toString i))
  | _ => .arr []

/-- The object copy `\x7b ...updates \x7d` at the top of `applyPreProcessors`:
spreading a non-object produces a fresh object (strings spread to indexed
characters, arrays to indexed elements, other primitives to `\x7b\x7d`). -/
def spreadCopy : JSVal → JSVal
  | .obj fields => .obj fields
  | .arr xs => .obj (xs.enum.map fun iv => (toString iv.fst, iv.snd))
  | .str s => .obj (s.toList.enum.map fun ic => (toString ic.fst, JSVal.str (String.singleton ic.snd)))
  | _ => .obj []

/-- The `sanitize` pre-processor body: trim every string-valued property. -/
def trimStringProps : JSVal → JSVal
  | .obj fields =>
    .obj (fields.map fun kv =>
      (kv.fst, match kv.snd with
               | .str s => JSVal.str (jsTrim s)
               | v => v))
  | v => v

/-- `applyPreProcessors` (lines 170-196).  A `null`/`undefined` entry in the
processor list makes the `processor.name` access throw; the `catch` then
returns the ORIGINAL `updates` value.  Otherwise any processor with
`type === 'sanitize'` trims the string properties of the copied updates. -/
def applyPreProcessors (updates preProcessors : JSVal) : JSVal :=
  let processed := spreadCopy updates
  match preProcessors with
  | .arr ps =>
    if ps.any isNullOrUndefJS then updates
    else if ps.any (fun p =>
        match p.getField "type" with
        | .str t => t == "sanitize"
        | _ => false) then
      trimStringProps processed
    else processed
  | _ => processed

/-- One step of the `customValidators.forEach` loop in
`validateWithCustomRules` (lines 211-226).  A `null`/`undefined` validator,
a `null`/`undefined` data base, or `value.toString()` on a `null` value in
the `minLength` branch throws; the surrounding `catch` then returns
`\x7b isValid: false, errors: ['Validation error occurred'] \x7d`.
(The `minLength` bound only takes effect for a numeric `validator.value`;
JS numeric-string coercion of the bound is not modelled — no route supplies
custom validators at all.) -/
def runCustomValidators (data : JSVal) :
    List JSVal → Bool × List String → Bool × List String
  | [], acc => acc
  | v :: rest, acc =>
    if isNullOrUndefJS v then (false, ["Validation error occurred"])
    else
      let field := v.getField "field"
      if ¬ field.truthy then runCustomValidators data rest acc
      else
        match jsIndex data (jsToStringCoerce field) with
        | .error _ => (false, ["Validation error occurred"])
        | .ok value =>
          if isUndefinedJS value then runCustomValidators data rest acc
          else
            let fname := jsToStringCoerce field
            let isRule : String → Bool := fun r =>
              match v.getField "rule" with
              | .str t => t == r
              | _ => false
            let acc1 : Bool × List String :=
              if isRule "required" &&
                 (¬ value.truthy || jsTrim (jsToStringCoerce value) == "") then
                (false, acc.snd ++ [fname ++ " is required"])
              else acc
            if isRule "minLength" then
              if isNullJS value then (false, ["Validation error occurred"])
              else
                match v.getField "value" with
                | .num m =>
                  if ((jsToStringCoerce value).length : Int) < m then
                    runCustomValidators data rest
                      (false, acc1.snd ++ [fname ++ " must be at least " ++
                        jsToStringCoerce (v.getField "value") ++ " characters"])
                  else runCustomValidators data rest acc1
                | _ => runCustomValidators data rest acc1
            else runCustomValidators data rest acc1

/-- `validateWithCustomRules` (lines 198-234): non-array validators are a
no-op; otherwise the validators run in order over the data. -/
def validateWithCustomRules (data customValidators : JSVal) : Bool × List String :=
  match customValidators with
  | .arr vs => runCustomValidators data vs (true, [])
  | _ => (true, [])

/-! ### `createDetailedItem` (ItemDetailsController.js lines 413-535) -/

/-- The destructured options of `createDetailedItem`, after the declared
defaults have been applied (fields that are only logged, such as
`validationLevel` and `versionControl`, are omitted). -/
structure CreateOpts where
  name : JSVal
  description : JSVal
  category : JSVal
  priority : JSVal
  tags : JSVal
  statusField : JSVal
  dueDate : JSVal
  assignee : JSVal
  createdBy : JSVal
  customFields : JSVal
  attachments : JSVal
  permissions : JSVal
  notificationSettings : JSVal
  auditEnabled : JSVal
  backupEnabled : JSVal
  metadata : JSVal
  dependencies : JSVal
  estimatedHours : JSVal
  budget : JSVal
  location : JSVal
  externalRefs : JSVal
  workflowStage : JSVal
  approvalRequired : JSVal
  templateId : JSVal
  parentItemId : JSVal
  linkedItems : JSVal
  reminderSettings : JSVal

/-- Apply the destructuring defaults of `createDetailedItem` to its options
object (`status` maps to `statusField` in the Lean structure). -/
def resolveCreateOpts (options : JSVal) : CreateOpts where
  name := options.getField "name"
  description := options.getField "description"
  category := options.getField "category"
  priority := options.getField "priority"
  tags := options.getField "tags"
  statusField := options.getField "status"
  dueDate := options.getField "dueDate"
  assignee := options.getField "assignee"
  createdBy := options.getField "createdBy"
  customFields := withDefault (options.getField "customFields") (.obj [])
  attachments := withDefault (options.getField "attachments") (.arr [])
  permissions := withDefault (options.getField "permissions") (.arr [])
  notificationSettings := withDefault (options.getField "notificationSettings") (.obj [])
  auditEnabled := withDefault (options.getField "auditEnabled") (.bool false)
  backupEnabled := withDefault (options.getField "backupEnabled") (.bool false)
  metadata := withDefault (options.getField "metadata") (.obj [])
  dependencies := withDefault (options.getField "dependencies") (.arr [])
  estimatedHours := withDefault (options.getField "estimatedHours") (.num 0)
  budget := withDefault (options.getField "budget") (.num 0)
  location := withDefault (options.getField "location") (.str "")
  externalRefs := withDefault (options.getField "externalRefs") (.arr [])
  workflowStage := withDefault (options.getField "workflowStage") (.str "draft")
  approvalRequired := withDefault (options.getField "approvalRequired") (.bool false)
  templateId := withDefault (options.getField "templateId") .null
  parentItemId := withDefault (options.getField "parentItemId") .null
  linkedItems := withDefault (options.getField "linkedItems") (.arr [])
  reminderSettings := withDefault (options.getField "reminderSettings") (.obj [])

/-- The `INSERT INTO item_details` of `createDetailedItem`: every bound
`itemData` property must be bindable (an `undefined` or boolean property —
e.g. the default `approvalRequired = false` — raises a `TypeError`), and the
NOT NULL `name` column rejects a NULL binding; either failure is caught by
the handler and surfaces as a 500.  On success the new row takes the next
AUTOINCREMENT id; `updated_at` is filled by its column DEFAULT. -/
def insertDetailRow (o : CreateOpts) (processedFields attachmentIds : JSVal)
    (now : String) (db : DetailsDB) : Option DetailRow :=
  match bindValue (o.name) with
  | none => none
  | some name =>
  match bindValue (o.description) with
  | none => none
  | some description =>
  match bindValue (o.category) with
  | none => none
  | some category =>
  match bindValue (o.priority) with
  | none => none
  | some priority =>
  match bindValue (stringifyJS o.tags) with
  | none => none
  | some tags =>
  match bindValue (o.statusField) with
  | none => none
  | some statusVal =>
  match bindValue (o.dueDate) with
  | none => none
  | some due_date =>
  match bindValue (o.assignee) with
  | none => none
  | some assignee =>
  match bindValue (o.createdBy) with
  | none => none
  | some created_by =>
  match bindValue (stringifyJS processedFields) with
  | none => none
  | some custom_fields =>
  match bindValue (stringifyJS attachmentIds) with
  | none => none
  | some attachment_ids =>
  match bindValue (stringifyJS o.metadata) with
  | none => none
  | some metadata =>
  match bindValue (stringifyJS o.dependencies) with
  | none => none
  | some dependencies =>
  match bindValue (o.estimatedHours) with
  | none => none
  | some estimated_hours =>
  match bindValue (o.budget) with
  | none => none
  | some budget =>
  match bindValue (o.location) with
  | none => none
  | some location =>
  match bindValue (stringifyJS o.externalRefs) with
  | none => none
  | some external_refs =>
  match bindValue (o.workflowStage) with
  | none => none
  | some workflow_stage =>
  match bindValue (o.approvalRequired) with
  | none => none
  | some approval_required =>
  match bindValue (o.templateId) with
  | none => none
  | some template_id =>
  match bindValue (o.parentItemId) with
  | none => none
  | some parent_item_id =>
  match bindValue (stringifyJS o.linkedItems) with
  | none => none
  | some linked_items =>
  match bindValue (stringifyJS o.reminderSettings) with
  | none => none
  | some reminder_settings =>
  if name = SQLiteValue.null then none else
  some
    { id := db.nextId
      name := name
      description := description
      category := category
      priority := priority
      tags := tags
      status := statusVal
      due_date := due_date
      assignee := assignee
      created_by := created_by
      custom_fields := custom_fields
      attachment_ids := attachment_ids
      metadata := metadata
      dependencies := dependencies
      estimated_hours := estimated_hours
      budget := budget
      location := location
      external_refs := external_refs
      workflow_stage := workflow_stage
      approval_required := approval_required
      template_id := template_id
      parent_item_id := parent_item_id
      linked_items := linked_items
      reminder_settings := reminder_settings
      created_at := .text now
      updated_at := .text now }

/-- `createDetailedItem` (lines 413-535).  Permission failure responds 403
before any processing; otherwise custom fields and attachments are
processed, `itemData` is built (structured sub-fields `JSON.stringify`ed)
and inserted; any thrown error is caught and surfaces as a 500.  After a
successful insert, `sendNotifications` / `logAuditEvent` / `createBackup`
are no-op collaborators (each guards or catches internally), and the raw
stored row is returned with 201. -/
def createDetailedItem (options : JSVal) (now : String) (db : DetailsDB) :
    HttpResponse × DetailsDB :=
  let o := resolveCreateOpts options
  if ¬ validatePermissions o.permissions o.createdBy then
    (⟨403, errObj "Insufficient permissions"⟩, db)
  else
    let processedFields := processCustomFields o.customFields o.templateId now
    let attachmentIds := handleAttachments o.attachments now
    match insertDetailRow o processedFields attachmentIds now db with
    | none => (⟨500, errObj "Failed to create detailed item"⟩, db)
    | some row =>
      (⟨201, detailRowToJS row⟩, ⟨db.rows ++ [row], db.nextId + 1⟩)

/-- `getItemWithRelatedData` (lines 649-697): fetches the row by the raw
route parameter (404 when absent), calls the stub collaborators (each
returns `[]` / the item unchanged), and answers with the raw row spread
together with the related-data keys — so the `dependencies` column value is
overwritten by the resolved (empty) list, and `tags`/`custom_fields`/... stay
serialized text. -/
def getItemWithRelatedData (idParam : String) (db : DetailsDB) : HttpResponse :=
  match db.rows.find? (fun r => textAffinityMatch idParam r.id) with
  | none => ⟨404, errObj "Item not found"⟩
  | some item =>
    match detailRowToJS item with
    | .obj fields =>
      ⟨200, .obj (objSet (objSet (objSet (objSet (objSet fields
              "related_items" (.arr []))
              "attachments" (.arr []))
              "comments" (.arr []))
              "history" (.arr []))
              "dependencies" (.arr []))⟩
    | v => ⟨200, v⟩

/-- `deleteItemWithCleanup` (lines 700-739).  The row is fetched WITHOUT a
missing-item check, so for an unknown id the `item.attachment_ids` access
inside the first cleanup call throws and the catch responds 500 — the 404
branch below the DELETE is unreachable for missing ids.  For an existing id
the row is deleted, after which `logDeletion(item, req.user.id)` evaluates
`req.user.id`: with no auth middleware `req.user` is `undefined`, the access
throws, and the catch responds 500 even though the row is already gone. -/
def deleteItemWithCleanup (idParam : String) (user : JSVal) (db : DetailsDB) :
    HttpResponse × DetailsDB :=
  match db.rows.find? (fun r => textAffinityMatch idParam r.id) with
  | none => (⟨500, errObj "Deletion failed"⟩, db)
  | some _item =>
    let remaining := db.rows.filter (fun r => ¬ textAffinityMatch idParam r.id)
    let db' : DetailsDB := ⟨remaining, db.nextId⟩
    if db.rows.length - remaining.length = 0 then
      (⟨404, errObj "Item not found"⟩, db')
    else
      match jsIndex user "id" with
      | .error _ => (⟨500, errObj "Deletion failed"⟩, db')
      | .ok _ => (⟨200, msgObj "Item deleted successfully"⟩, db')

/-! ### `updateItemWithAdvancedOptions` (ItemDetailsController.js lines 538-645) -/

/-- `Object.keys`/`Object.values` base: throws on `null`/`undefined`,
enumerates an object's fields, an array's or string's indexed elements, and
nothing for other primitives. -/
def objEntries : JSVal → Except String (List (String × JSVal))
  | .obj fields => .ok fields
  | .arr xs => .ok (xs.enum.map fun iv => (toString iv.fst, iv.snd))
  | .str s =>
    .ok (s.toList.enum.map fun ic => (toString ic.fst, JSVal.str (String.singleton ic.snd)))
  | .num _ => .ok []
  | .bool _ => .ok []
  | .null => .error "TypeError: Cannot convert undefined or null to object"
  | .undefined => .error "TypeError: Cannot convert undefined or null to object"

/-- Bind a whole parameter list (better-sqlite3 binds each anonymous
parameter in order; the first unbindable value throws). -/
def bindAll : List JSVal → Option (List SQLiteValue)
  | [] => some []
  | v :: rest =>
    match bindValue v with
    | none => none
    | some b =>
      match bindAll rest with
      | none => none
      | some bs => some (b :: bs)

def applySetPairs (r : DetailRow) (pairs : List (String × SQLiteValue)) : DetailRow :=
  pairs.foldl (fun acc kv => setDetailCol acc kv.fst kv.snd) r

/-- One token of the generated SQL text the model parses: identifiers,
`=`, `?` and `,`. -/
inductive SqlTok where
  | sqlId : String → SqlTok
  | eqTok : SqlTok
  | qmark : SqlTok
  | comma : SqlTok
deriving DecidableEq

/-- Tokenize the generated `SET ... WHERE id = ?` text.  `none` models text
this embedding does not cover (quoted literals, parentheses, semicolons,
digits starting a token, comments): such texts are treated as a prepare
error below.  No settled theorem supplies a payload key outside this
token alphabet. -/
def sqlTokenize (fuel : Nat) (cs : List Char) : Option (List SqlTok) :=
  match fuel with
  | 0 => none
  | fuel + 1 =>
    match cs with
    | [] => some []
    | c :: rest =>
      if c = ' ' ∨ c = '\t' ∨ c = '\n' ∨ c = '\r' then sqlTokenize fuel rest
      else if c = '=' then (sqlTokenize fuel rest).map (SqlTok.eqTok :: ·)
      else if c = '?' then (sqlTokenize fuel rest).map (SqlTok.qmark :: ·)
      else if c = ',' then (sqlTokenize fuel rest).map (SqlTok.comma :: ·)
      else if c.isAlpha ∨ c = '_' then
        let ds := rest.takeWhile (fun d => d.isAlphanum ∨ d = '_')
        (sqlTokenize fuel (rest.drop ds.length)).map
          (SqlTok.sqlId (String.mk (c :: ds)) :: ·)
      else none

/-- Parse the tail `\<col\> = ? (, \<col\> = ?)* WHERE id = ?` of the dynamic
UPDATE, returning the assigned column names in placeholder order (the final
one is the fixed `updated_at` assignment).  Each `= ?` consumes one
anonymous parameter at run time. -/
def parseSetTail (fuel : Nat) (toks : List SqlTok) : Option (List String) :=
  match fuel with
  | 0 => none
  | fuel + 1 =>
    match toks with
    | .sqlId col :: .eqTok :: .qmark :: .comma :: rest =>
      (parseSetTail fuel rest).map (fun cols => col :: cols)
    | [.sqlId col, .eqTok, .qmark, .sqlId w, .sqlId idc, .eqTok, .qmark] =>
      if w = "WHERE" ∧ idc = "id" then some [col] else none
    | _ => none

/-- Model of `prepare` on the dynamically built statement: rebuild the exact
text the code interpolates (`\<key\> = ?` per request key, joined by `, `, then
the fixed `, updated_at = ? WHERE id = ?`), tokenize and parse it, and
require every assigned name to be an `item_details` column.  `none` is a
prepare-time `SqliteError` (empty SET clause, unknown column, or text
outside the modelled grammar). -/
def prepareUpdateStatement (keys : List String) : Option (List String) :=
  let text := String.intercalate ", " (keys.map (fun k => k ++ " = ?"))
      ++ ", updated_at = ? WHERE id = ?"
  match sqlTokenize (text.length + 1) text.toList with
  | none => none
  | some toks =>
    match parseSetTail (toks.length + 1) toks with
    | none => none
    | some cols =>
      if cols.all (fun c => detailColumns.contains c) then some cols else none

/-- The dynamic `UPDATE item_details SET <setClause>, updated_at = ? WHERE
id = ?` built at lines 609-625.  The request-supplied keys are interpolated
verbatim into the SET clause (the source comments this as "potential SQL
injection if not careful"), so the statement is modelled by parsing the
generated text.  A plain column-name key contributes one placeholder; a
crafted key may carry its own `= ?` fragments and contribute several.
`run` receives `values = [...Object.values(processedUpdates), itemId]` plus
the timestamp and `itemId` again; better-sqlite3 raises a `RangeError` when
that argument count differs from the placeholder count.  With plain column
keys the statement has `n + 2` placeholders against `n + 3` arguments, so
every such update fails; a payload carrying e.g. the extra key
`"name = ?, description"` makes the counts match, the UPDATE executes, and
the injected assignments commit — the assignments bind the arguments in
order, so `updated_at` takes the timestamp only when no key injects extra
placeholders after it, and the final argument binds the `WHERE id`. -/
def runDynamicUpdate (processedUpdates itemId : JSVal) (now : String)
    (db : DetailsDB) : Except String JSVal × DetailsDB :=
  match objEntries processedUpdates with
  | .error e => (.error e, db)
  | .ok pairs =>
    let updateFields := pairs.map Prod.fst
    match prepareUpdateStatement updateFields with
    | none => (.error "SqliteError: failed to prepare the dynamic UPDATE", db)
    | some cols =>
      let nPlaceholders := cols.length + 1
      let runArgs : List JSVal := (pairs.map Prod.snd) ++ [itemId] ++ [JSVal.str now, itemId]
      if runArgs.length > nPlaceholders then
        (.error "RangeError: Too many parameter values were provided", db)
      else if runArgs.length < nPlaceholders then
        (.error "RangeError: Too few parameter values were provided", db)
      else
        match bindAll runArgs with
        | none =>
          (.error "TypeError: SQLite3 can only bind numbers, strings, bigints, buffers, and null", db)
        | some bound =>
          let setPairs := cols.zip (bound.take cols.length)
          let whereVal := (bound.drop cols.length).headD SQLiteValue.null
          let newRows := db.rows.map fun r =>
            if affinityMatchesId whereVal r.id then applySetPairs r setPairs
            else r
          let changes := db.rows.countP (fun r => affinityMatchesId whereVal r.id)
          if changes = 0 then (.error "Update failed - no rows affected", db)
          else
            let db2 : DetailsDB := ⟨newRows, db.nextId⟩
            match bindValue itemId with
            | none => (.error "TypeError: SQLite3 can only bind numbers, strings, bigints, buffers, and null", db2)
            | some idv =>
              match db2.rows.find? (fun r => affinityMatchesId idv r.id) with
              | some u => (.ok (detailRowToJS u), db2)
              | none => (.error "TypeError: Cannot read properties of undefined", db2)

/-- The destructured options of `updateItemWithAdvancedOptions` that affect
behaviour, after defaults (options that are only logged or feed no-op
collaborators — `auditOptions`, `notificationOptions`, `backupOptions`,
`postProcessors`, retry/timeout/caching settings, callbacks — are omitted). -/
structure UpdateOpts where
  itemId : JSVal
  updates : JSVal
  userId : JSVal
  permissions : JSVal
  customValidators : JSVal
  preProcessors : JSVal
  versioningOptions : JSVal

/-- Apply the destructuring defaults of `updateItemWithAdvancedOptions` to
its options object.  Note `permissions = []`: an options object carrying
`permissions: undefined` (as the PUT route builds) resolves to the empty
array, not to `undefined`. -/
def resolveUpdateOptions (options : JSVal) : UpdateOpts where
  itemId := options.getField "itemId"
  updates := options.getField "updates"
  userId := options.getField "userId"
  permissions := withDefault (options.getField "permissions") (.arr [])
  customValidators := withDefault (options.getField "customValidators") (.arr [])
  preProcessors := withDefault (options.getField "preProcessors") (.arr [])
  versioningOptions := withDefault (options.getField "versioningOptions") (.obj [])

/-- `updateItemWithAdvancedOptions` (lines 538-645): permission check, then
pre-processors, custom validation, fetch of the current row
(`get(itemId)` binds the raw option value), the versioning guard
(`versioningOptions.enabled` property access), and finally the dynamic
UPDATE.  Every thrown error is rethrown to the caller
(modelled as `Except.error`); the store is returned alongside. -/
def updateItemWithAdvancedOptions (options : JSVal) (now : String)
    (db : DetailsDB) : Except String JSVal × DetailsDB :=
  let o := resolveUpdateOptions options
  if ¬ validateUpdatePermissions o.permissions o.userId o.itemId then
    (.error "Access denied", db)
  else
    let processedUpdates := applyPreProcessors o.updates o.preProcessors
    let vr := validateWithCustomRules processedUpdates o.customValidators
    if ¬ vr.fst then
      (.error ("Validation failed: " ++ String.intercalate ", " vr.snd), db)
    else
      match bindValue o.itemId with
      | none =>
        (.error "TypeError: SQLite3 can only bind numbers, strings, bigints, buffers, and null", db)
      | some idv =>
        match db.rows.find? (fun r => affinityMatchesId idv r.id) with
        | none => (.error "Item not found", db)
        | some _currentItem =>
          match jsIndex o.versioningOptions "enabled" with
          | .error e => (.error e, db)
          | .ok _enabled => runDynamicUpdate processedUpdates o.itemId now db

def isErr : Except String JSVal → Bool
  | .error _ => true
  | .ok _ => false

/-! ### Route wiring (`app.js` lines 192-308) -/

/-- The body keys the `POST /api/items/details` route destructures and
forwards to `createDetailedItem` as its options object. -/
def postRouteKeys : List String :=
  ["name", "description", "category", "priority", "tags", "status", "dueDate",
   "assignee", "createdBy", "customFields", "attachments", "permissions",
   "validationLevel", "notificationSettings", "auditEnabled", "backupEnabled",
   "versionControl", "metadata", "dependencies", "estimatedHours", "budget",
   "location", "externalRefs", "workflowStage", "approvalRequired",
   "templateId", "parentItemId", "linkedItems", "reminderSettings"]

def postRouteOptions (body : JSVal) : JSVal :=
  .obj (postRouteKeys.map fun k => (k, body.getField k))

/-- `POST /api/items/details` (app.js lines 206-235). -/
def postDetailsRoute (body : JSVal) (now : String) (db : DetailsDB) :
    HttpResponse × DetailsDB :=
  createDetailedItem (postRouteOptions body) now db

/-- `GET /api/items/:id/details` (app.js lines 194-204). -/
def getDetailsRoute (idParam : String) (db : DetailsDB) : HttpResponse :=
  getItemWithRelatedData idParam db

/-- The options object the `PUT /api/items/:id/details` route builds
(app.js lines 246-272).  No middleware assigns `req.user`, `req.permissions`
or the other advanced `req.*` fields, so `userId` falls back to
`'anonymous'` and every other forwarded option is `undefined`. -/
def putRouteOptions (idParam : String) (body : JSVal) : JSVal :=
  .obj [("itemId", .str idParam),
        ("updates", body),
        ("userId", .str "anonymous"),
        ("userRole", .str "user"),
        ("permissions", .undefined),
        ("validationRules", .undefined),
        ("auditOptions", .undefined),
        ("notificationOptions", .undefined),
        ("backupOptions", .undefined),
        ("versioningOptions", .undefined),
        ("conflictResolution", .undefined),
        ("retryPolicy", .undefined),
        ("timeoutSettings", .undefined),
        ("cachingStrategy", .undefined),
        ("loggingLevel", .undefined),
        ("performanceTracking", .undefined),
        ("securityContext", .undefined),
        ("transactionOptions", .undefined),
        ("rollbackStrategy", .undefined),
        ("successCallbacks", .undefined),
        ("errorCallbacks", .undefined),
        ("progressCallbacks", .undefined),
        ("customValidators", .undefined),
        ("postProcessors", .undefined),
        ("preProcessors", .undefined)]

/-- `PUT /api/items/:id/details` (app.js lines 237-281): a resolved update is
returned with 200; any thrown error is caught and answered with 500. -/
def putDetailsRoute (idParam : String) (body : JSVal) (now : String)
    (db : DetailsDB) : HttpResponse × DetailsDB :=
  match updateItemWithAdvancedOptions (putRouteOptions idParam body) now db with
  | (.ok v, db2) => (⟨200, v⟩, db2)
  | (.error _, db2) => (⟨500, errObj "Failed to update detailed item"⟩, db2)

/-- `DELETE /api/items/:id/details` (app.js lines 283-293); `req.user` is
`undefined` because no auth middleware is installed. -/
def deleteDetailsRoute (idParam : String) (db : DetailsDB) :
    HttpResponse × DetailsDB :=
  deleteItemWithCleanup idParam .undefined db

/-! ### Spec-side predicates (formalizing the claims' wording) -/

def validCategories : List String := ["work", "personal", "urgent"]
def validPriorities : List String := ["low", "medium", "high", "critical"]
def validStatuses : List String := ["active", "pending", "completed", "cancelled"]

/-- A supplied enum field is invalid when present but not one of the fixed
values (an absent field is allowed). -/
def enumFieldInvalid (v : JSVal) (allowed : List String) : Bool :=
  match v with
  | .undefined => false
  | .str s => ¬ allowed.contains s
  | _ => true

/-- A supplied name is invalid when it is not a string or is blank after
trimming (an absent name is allowed in a partial update). -/
def nameFieldInvalid : JSVal → Bool
  | .undefined => false
  | .str s => jsTrim s == ""
  | _ => true

/-- The claims' notion of an update payload "containing at least one invalid
field": an out-of-enum `category`/`priority`/`status`, or an invalid `name`. -/
def hasInvalidDetailField (updates : JSVal) : Bool :=
  enumFieldInvalid (updates.getField "category") validCategories ||
  enumFieldInvalid (updates.getField "priority") validPriorities ||
  enumFieldInvalid (updates.getField "status") validStatuses ||
  nameFieldInvalid (updates.getField "name")

/-- An update payload key outside the documented ItemDetail field set
(the `item_details` columns). -/
def hasUndocumentedKey (updates : JSVal) : Bool :=
  match updates with
  | .obj fields => fields.any (fun kv => ¬ detailColumns.contains kv.fst)
  | _ => false

/-- The Item-name validity condition of the spec: present, a string, and
non-blank after trimming; returns the accepted name. -/
def validItemName : JSVal → Option String
  | .str s => if jsTrim s = "" then none else some s
  | _ => none

/-! ### Concrete request data used by the settled claims -/

/-- The concrete body of the spec's POST `/api/items/details` scenario. -/
def launchBody : JSVal :=
  .obj [("name", .str "Launch"), ("category", .str "work"), ("priority", .str "high")]

/-- A fully-bindable create body (every positional `INSERT` parameter binds:
all free-text fields supplied as strings, `approvalRequired` supplied as the
number 0 instead of the unbindable boolean default, and the caller granted
`read`/`write` permissions), with a chosen `category` and `tags` value. -/
def fullCreateBody (cat : String) (tags : JSVal) : JSVal :=
  .obj [("name", .str "Task"), ("description", .str "d"), ("category", .str cat),
        ("priority", .str "high"), ("tags", tags), ("status", .str "active"),
        ("dueDate", .str "2026-12-01"), ("assignee", .str "a"),
        ("createdBy", .str "u"), ("approvalRequired", .num 0),
        ("permissions", .arr [.str "read", .str "write"])]

/-- Create body whose `category` is outside the documented enum. -/
def c1Body : JSVal := fullCreateBody "bogus" (.arr [])

/-- Create body carrying the structured tags value `["a","b"]`. -/
def c3Body : JSVal := fullCreateBody "work" (.arr [.str "a", .str "b"])

/-- A concrete stored `item_details` row with id 1. -/
def sampleDetailRow : DetailRow where
  id := 1
  name := .text "n"
  description := .null
  category := .text "work"
  priority := .text "high"
  tags := .text "[]"
  status := .text "active"
  due_date := .null
  assignee := .null
  created_by := .null
  custom_fields := .text "\x7b\x7d"
  attachment_ids := .text "[]"
  metadata := .text "\x7b\x7d"
  dependencies := .text "[]"
  estimated_hours := .int 0
  budget := .int 0
  location := .text ""
  external_refs := .text "[]"
  workflow_stage := .text "draft"
  approval_required := .int 0
  template_id := .null
  parent_item_id := .null
  linked_items := .text "[]"
  reminder_settings := .text "\x7b\x7d"
  created_at := .text "T0"
  updated_at := .text "T0"

def sampleDetailsDB : DetailsDB := ⟨[sampleDetailRow], 2⟩

def sampleItemsDB : ItemsDB := ⟨[⟨1, "Item 1", "T0"⟩], 2⟩

/-- A direct `updateItemWithAdvancedOptions` call with sufficient (`write`)
permissions on existing row 1, whose payload carries an out-of-enum
`category` together with the crafted key `"name = ?, description"`.  That
key is interpolated verbatim into the SET clause, contributing two
placeholders, so the generated statement
`UPDATE item_details SET category = ?, name = ?, description = ?,
updated_at = ? WHERE id = ?` has exactly as many placeholders as `run`
receives arguments — the UPDATE executes and commits. -/
def injectionUpdateOptions : JSVal :=
  .obj [("itemId", .num 1),
        ("updates", .obj [("category", .str "bogus"),
                          ("name = ?, description", .str "x")]),
        ("permissions", .arr [.str "write"]),
        ("userId", .str "u")]

/-- C1: the claim says an out-of-enum `category` makes create reject with a
ValidationError and persist nothing; the code persists the record and
responds 201 on the fully-bindable body `c1Body` with `category: "bogus"`. -/
theorem c1_out_of_enum_create_persists :
    (postDetailsRoute c1Body "T0" emptyDetailsDB).1.status = 201 ∧
    (postDetailsRoute c1Body "T0" emptyDetailsDB).2.rows.map (fun r => r.category)
      = [.text "bogus"] := ⟨rfl, rfl⟩

/-- C3: the claim says reading back a created record yields the structured
tags value `["a","b"]`; the code answers 201 on create but the subsequent
GET returns the serialized text `"[\"a\",\"b\"]"`, not an array. -/
theorem c3_read_back_returns_serialized_text :
    (postDetailsRoute c3Body "T0" emptyDetailsDB).1.status = 201 ∧
    (getDetailsRoute "1" (postDetailsRoute c3Body "T0" emptyDetailsDB).2).body.getField "tags"
      = .str "[\"a\",\"b\"]" ∧
    ((getDetailsRoute "1" (postDetailsRoute c3Body "T0" emptyDetailsDB).2).body.getField "tags").isArr
      = false := ⟨rfl, rfl, rfl⟩

/-- C6: the claim says deleting a nonexistent ItemDetail id fails with
NotFoundError (404); the code throws on `item.attachment_ids` before its 404
check and responds 500 with the store untouched. -/
theorem c6_missing_id_delete_responds_500 :
    deleteDetailsRoute "999999" emptyDetailsDB
      = (⟨500, errObj "Deletion failed"⟩, emptyDetailsDB) := rfl

/-- C7: the claim says a delete that removes the row reports success even if
a best-effort cleanup step fails; deleting existing row 1 does remove the
row, but the `req.user.id` access in the deletion-logging step throws and
the response is 500, not success. -/
theorem c7_removed_row_reports_failure :
    (deleteDetailsRoute "1" sampleDetailsDB).2.rows = [] ∧
    (deleteDetailsRoute "1" sampleDetailsDB).1.status = 500 := ⟨rfl, rfl⟩

/-- C2: the claim says an update request containing an invalid field
persists no field and fails before touching storage.  With `write`
permissions, the crafted payload key `"name = ?, description"` makes the
dynamic UPDATE's placeholder count match its argument count, the statement
executes, and the out-of-enum `category: "bogus"` is committed to row 1
(together with `name = 'x'` and `description = 1`, the trailing `itemId`
binding); the operation even reports success. -/
theorem c2_injected_update_commits_invalid_field :
    hasInvalidDetailField (injectionUpdateOptions.getField "updates") = true ∧
    isErr (updateItemWithAdvancedOptions injectionUpdateOptions "T1" sampleDetailsDB).1 = false ∧
    (updateItemWithAdvancedOptions injectionUpdateOptions "T1" sampleDetailsDB).2.rows.map
        (fun r => (r.category, r.name, r.description, r.updated_at))
      = [(.text "bogus", .text "x", .int 1, .text "T1")] := ⟨rfl, rfl, rfl⟩

/-- C8: the claim says payload keys outside the documented field set are
rejected or ignored and that columns not named as documented fields in the
payload stay unchanged.  The undocumented key `"name = ?, description"` is
neither rejected (the update succeeds) nor ignored: its injected SET
fragments change the `name` and `description` columns, which no documented
field of the payload names. -/
theorem c8_undocumented_key_changes_unnamed_columns :
    hasUndocumentedKey (injectionUpdateOptions.getField "updates") = true ∧
    isErr (updateItemWithAdvancedOptions injectionUpdateOptions "T1" sampleDetailsDB).1 = false ∧
    (updateItemWithAdvancedOptions injectionUpdateOptions "T1" sampleDetailsDB).2.rows.map
        (fun r => (r.name, r.description))
      = [(.text "x", .int 1)] ∧
    sampleDetailRow.name = .text "n" ∧ sampleDetailRow.description = .null :=
  ⟨rfl, rfl, rfl, rfl, rfl⟩

/-- C4 counterexample: at the concrete request `PUT /api/items/1/details`
with an empty body, the permission value the update permission check
receives is the empty array (the destructuring default applied to the
absent `req.permissions`), NOT `undefined`; `validateUpdatePermissions`
still returns false on it. -/
theorem c4_permissions_not_undefined_counterexample :
    (resolveUpdateOptions (putRouteOptions "1" (.obj []))).permissions = .arr [] ∧
    ((resolveUpdateOptions (putRouteOptions "1" (.obj []))).permissions = .undefined → False) ∧
    validateUpdatePermissions (.arr []) (.str "anonymous") (.str "1") = false := by
  refine ⟨rfl, ?_, rfl⟩
  intro h
  rw [show (resolveUpdateOptions (putRouteOptions "1" (.obj []))).permissions
        = JSVal.arr [] from rfl] at h
  exact JSVal.noConfusion h

/-- C4 (amended): for every id and payload, the PUT route as wired responds
500 and never changes the store — the permission check receives the
empty-array default for the absent `req.permissions`, fails, and the thrown
error is caught by the route. -/
theorem c4_put_route_always_500 (idParam : String) (body : JSVal)
    (now : String) (db : DetailsDB) :
    (putDetailsRoute idParam body now db).1.status = 500 ∧
    (putDetailsRoute idParam body now db).2 = db :=
  ⟨rfl, rfl⟩

/-- C5 counterexample: POST `/api/items/details` with exactly
`\x7b"name":"Launch","category":"work","priority":"high"\x7d` responds 403,
not 201. -/
theorem c5_launch_post_counterexample :
    (postDetailsRoute launchBody "T0" emptyDetailsDB).1.status = 403 ∧
    ¬ ((postDetailsRoute launchBody "T0" emptyDetailsDB).1.status = 201) := by
  refine ⟨rfl, ?_⟩
  intro h
  rw [show (postDetailsRoute launchBody "T0" emptyDetailsDB).1.status = 403 from rfl] at h
  omega

/-- C5 (amended): against any store and at any time, POST of the Launch body
is rejected with 403 `Insufficient permissions` (the body carries no
`permissions: ['read','write']`, so the default empty array fails the
permission check) and nothing is persisted. -/
theorem c5_launch_post_rejected_403 (now : String) (db : DetailsDB) :
    postDetailsRoute launchBody now db = (⟨403, errObj "Insufficient permissions"⟩, db) := rfl

/-- C9: POST `/api/items` rejects a missing, non-string or blank-after-trim
name with 400 and inserts nothing; any other string name inserts exactly one
row (taking the next id and the creation timestamp) and returns the full
stored record. -/
theorem c9_item_create_contract (body : JSVal) (now : String) (db : ItemsDB) :
    (validItemName (body.getField "name") = none →
      (postItemsRoute body now db).1.status = 400 ∧
      (postItemsRoute body now db).2 = db) ∧
    (∀ s, validItemName (body.getField "name") = some s →
      postItemsRoute body now db =
        (⟨201, itemRowToJS ⟨db.nextId, s, now⟩⟩,
         ⟨db.rows ++ [⟨db.nextId, s, now⟩], db.nextId + 1⟩)) := by
  unfold postItemsRoute
  cases hb : body.getField "name" with
  | str s0 =>
    by_cases ht : jsTrim s0 = ""
    · refine ⟨fun _ => ?_, fun s hs => ?_⟩
      · simp [ht]
      · simp [validItemName, ht] at hs
    · refine ⟨fun hnone => ?_, fun s hs => ?_⟩
      · simp [validItemName, ht] at hnone
      · simp only [validItemName, if_neg ht, Option.some.injEq] at hs
        subst hs
        simp [ht]
  | undefined => exact ⟨fun _ => ⟨rfl, rfl⟩, fun s hs => absurd hs (by simp [validItemName])⟩
  | null => exact ⟨fun _ => ⟨rfl, rfl⟩, fun s hs => absurd hs (by simp [validItemName])⟩
  | bool b => exact ⟨fun _ => ⟨rfl, rfl⟩, fun s hs => absurd hs (by simp [validItemName])⟩
  | num n => exact ⟨fun _ => ⟨rfl, rfl⟩, fun s hs => absurd hs (by simp [validItemName])⟩
  | arr xs => exact ⟨fun _ => ⟨rfl, rfl⟩, fun s hs => absurd hs (by simp [validItemName])⟩
  | obj fs => exact ⟨fun _ => ⟨rfl, rfl⟩, fun s hs => absurd hs (by simp [validItemName])⟩

/-- C9 witness: the spec's `Buy milk` body succeeds with 201 and appends one
row; a whitespace-only name is rejected with 400 and the store unchanged. -/
theorem c9_item_create_contract_witness :
    (postItemsRoute (.obj [("name", .str "Buy milk")]) "T0" sampleItemsDB =
      (⟨201, itemRowToJS ⟨2, "Buy milk", "T0"⟩⟩,
       ⟨sampleItemsDB.rows ++ [⟨2, "Buy milk", "T0"⟩], 3⟩)) ∧
    ((postItemsRoute (.obj [("name", .str "   ")]) "T0" sampleItemsDB).1.status = 400 ∧
     (postItemsRoute (.obj [("name", .str "   ")]) "T0" sampleItemsDB).2 = sampleItemsDB) := by
  constructor
  · exact (c9_item_create_contract (.obj [("name", .str "Buy milk")]) "T0" sampleItemsDB).2
      "Buy milk" rfl
  · exact (c9_item_create_contract (.obj [("name", .str "   ")]) "T0" sampleItemsDB).1 rfl

/-- C10 counterexample: `DELETE /api/items/abc` (id not parseable as an
integer) responds 400, not the claimed NotFoundError 404. -/
theorem c10_unparseable_id_counterexample :
    (deleteItemsRoute "abc" sampleItemsDB).1.status = 400 ∧
    ¬ ((deleteItemsRoute "abc" sampleItemsDB).1.status = 404) := by
  refine ⟨rfl, ?_⟩
  intro h
  rw [show (deleteItemsRoute "abc" sampleItemsDB).1.status = 400 from rfl] at h
  omega

/-- C10 (amended): an id that does not parse as an integer is rejected with
400 (ValidationError) and no mutation; an integer id matching no row yields
404 (NotFoundError) and no mutation — hence repeating the DELETE on an
already-deleted id answers 404 every time. -/
theorem c10_item_delete_contract (idParam : String) (db : ItemsDB) :
    (parseIntJS idParam = none →
      (deleteItemsRoute idParam db).1.status = 400 ∧
      (deleteItemsRoute idParam db).2 = db) ∧
    (∀ n, parseIntJS idParam = some n → (∀ r ∈ db.rows, r.id ≠ n) →
      (deleteItemsRoute idParam db).1.status = 404 ∧
      (deleteItemsRoute idParam db).2 = db) := by
  constructor
  · intro h
    unfold deleteItemsRoute
    rw [h]
    exact ⟨rfl, rfl⟩
  · intro n hn hnone
    unfold deleteItemsRoute
    rw [hn]
    have hfilter : db.rows.filter (fun r => !decide (r.id = n)) = db.rows := by
      rw [List.filter_eq_self]
      intro r hr
      simpa using hnone r hr
    simp [hfilter]

/-- C10 witness: a nonexistent integer id answers 404 with no mutation, and
an unparseable id answers 400 with no mutation. -/
theorem c10_item_delete_contract_witness :
    ((deleteItemsRoute "999999" sampleItemsDB).1.status = 404 ∧
     (deleteItemsRoute "999999" sampleItemsDB).2 = sampleItemsDB) ∧
    ((deleteItemsRoute "xyz" sampleItemsDB).1.status = 400 ∧
     (deleteItemsRoute "xyz" sampleItemsDB).2 = sampleItemsDB) := by
  constructor
  · exact (c10_item_delete_contract "999999" sampleItemsDB).2 999999 rfl (by decide)
  · exact (c10_item_delete_contract "xyz" sampleItemsDB).1 rfl

/-- C4 amended-claim witness: a concrete PUT request against a store holding
row 1 responds 500 and leaves the store unchanged. -/
theorem c4_put_route_always_500_witness :
    (putDetailsRoute "1" (.obj [("name", .str "x")]) "T1" sampleDetailsDB).1.status = 500 ∧
    (putDetailsRoute "1" (.obj [("name", .str "x")]) "T1" sampleDetailsDB).2 = sampleDetailsDB :=
  c4_put_route_always_500 "1" (.obj [("name", .str "x")]) "T1" sampleDetailsDB

/-- C5 amended-claim witness: the Launch POST against a concrete non-empty
store is rejected with 403 and persists nothing. -/
theorem c5_launch_post_rejected_403_witness :
    postDetailsRoute launchBody "T9" sampleDetailsDB
      = (⟨403, errObj "Insufficient permissions"⟩, sampleDetailsDB) :=
  c5_launch_post_rejected_403 "T9" sampleDetailsDB
